import Mathlib

/-!
Verification of the feed-ingestion and article-intelligence services
(rss_service.py, ai_service.py) of the ais-web repository, as a shallow
embedding in Lean.  Python strings are modelled as Lean strings, Python
dicts with known keys as structures with Option fields, and the external
effects (HTTP fetch, XML parse, the remote chat endpoint, the HTML
parser) as explicit input values describing their outcome.
-/

namespace AisWeb

/-! ## Python string primitives -/

/-- Whitespace as recognised by Python str.split() / str.strip()
(the ASCII portion, which is all the code relies on). -/
def pyIsSpace (c : Char) : Bool :=
  c == ' ' || c == '\t' || c == '\n' || c == '\r' || c == '\x0b' || c == '\x0c'

/-- Python str.strip(): drop leading and trailing whitespace. -/
def pyStrip (s : String) : String :=
  String.mk (((s.data.dropWhile pyIsSpace).reverse.dropWhile pyIsSpace).reverse)

/-- Worker for pySplitWs, collecting the current word in reverse. -/
def pySplitWsAux : List Char → List Char → List String
  | [], acc => if acc.isEmpty then [] else [String.mk acc.reverse]
  | c :: rest, acc =>
    if pyIsSpace c then
      if acc.isEmpty then pySplitWsAux rest []
      else String.mk acc.reverse :: pySplitWsAux rest []
    else pySplitWsAux rest (c :: acc)

/-- Python str.split() with no argument: split on whitespace runs,
discarding empty fragments. -/
def pySplitWs (s : String) : List String :=
  pySplitWsAux s.data []

/-- Python str.startswith: prefix test on the characters. -/
def pyStartsWith (s p : String) : Bool :=
  p.data.isPrefixOf s.data

/-- Python str.lower, on the ASCII range the code relies on. -/
def pyLower (s : String) : String :=
  String.mk (s.data.map Char.toLower)

/-- Python slicing s[:n] (by code point). -/
def pyTake (s : String) (n : Nat) : String :=
  String.mk (s.data.take n)

/-- Python s.split(sep, 1)[1] for a colon separator known to occur:
everything after the first colon. -/
def afterColon (s : String) : String :=
  String.mk ((s.data.dropWhile (fun c => c != ':')).tail)

/-- Worker for pySplitSep: scan for the separator (a first character
and the remaining ones), collecting the current fragment in reverse.
The fuel argument, at least the input length at every call, makes the
recursion structural; each step consumes at least one character, so
the zero-fuel case coincides with the end-of-input case. -/
def splitSepCore (c0 : Char) (cs : List Char) :
    Nat → List Char → List Char → List String
  | 0, _, acc => [String.mk acc.reverse]
  | _ + 1, [], acc => [String.mk acc.reverse]
  | fuel + 1, c :: rest, acc =>
    if c = c0 ∧ cs.isPrefixOf rest then
      String.mk acc.reverse :: splitSepCore c0 cs fuel (rest.drop cs.length) []
    else splitSepCore c0 cs fuel rest (c :: acc)

/-- Python str.split(sep) for a non-empty separator: leftmost,
non-overlapping occurrences separate the fragments. -/
def pySplitSep (s sep : String) : List String :=
  match sep.data with
  | [] => [s]
  | c0 :: cs => splitSepCore c0 cs s.data.length s.data []

/-- First maximal run of decimal digits in a string, as re.search of
a digit run would find it. -/
def firstDigitRun : List Char → Option (List Char)
  | [] => none
  | c :: rest =>
    if c.isDigit then some (c :: rest.takeWhile Char.isDigit)
    else firstDigitRun rest

/-- Numeric value of a digit character. -/
def digitVal (c : Char) : Nat := c.toNat - 48

/-- Value of a list of digit characters (Python int() on a digit string). -/
def natOfDigits (ds : List Char) : Nat :=
  ds.foldl (fun acc c => acc * 10 + digitVal c) 0

/-! ## ArticleIntelligenceService (ai_service.py)

The remote chat endpoint is modelled by a value of type Remote: either
the text of the first content segment of a successful response, or an
error standing for any exception raised on the remote path. -/

inductive Remote where
  | ok (text : String) : Remote
  | err : Remote
deriving DecidableEq, Repr

/-- AIService._fallback_summary. -/
def fallback_summary (content : String) (max_length : Nat) : String :=
  if content = "" then "No content available for summary."
  else
    let words := pySplitWs content
    if words.length ≤ max_length then content
    else String.intercalate " " (words.take max_length) ++ "..."

/-- AIService._fallback_key_points.  The branch returning the
"No key points available" sentinel is kept although content.split
never yields an empty list on a non-empty string. -/
def fallback_key_points (content : String) (num_points : Nat) : List String :=
  if content = "" then ["No content available"]
  else
    let sentences := pySplitSep content ". "
    if sentences ≠ [] then sentences.take num_points
    else ["No key points available"]

/-- Sentiment dictionary built by AIService.analyze_sentiment: each key
is present only if the corresponding labelled line was found. -/
structure SentimentData where
  sentiment : Option String
  confidence : Option Nat
  explanation : Option String
deriving DecidableEq, Repr

/-- AIService._fallback_sentiment. -/
def fallback_sentiment : SentimentData :=
  { sentiment := some "neutral"
    confidence := some 50
    explanation := some "Sentiment analysis not available without AI service" }

/-- One iteration of the line loop of analyze_sentiment: strip the line,
test its label prefix, and update the corresponding key. -/
def updateSentiment (acc : SentimentData) (line : String) : SentimentData :=
  let l := pyStrip line
  if pyStartsWith l "Sentiment:" then
    { acc with sentiment := some (pyLower (pyStrip (afterColon l))) }
  else if pyStartsWith l "Confidence:" then
    let confidence_str := pyStrip (afterColon l)
    match firstDigitRun confidence_str.data with
    | some ds => { acc with confidence := some (natOfDigits ds) }
    | none => { acc with confidence := some 50 }
  else if pyStartsWith l "Explanation:" then
    { acc with explanation := some (pyStrip (afterColon l)) }
  else acc

/-- Parsing of the model response text in AIService.analyze_sentiment:
strip, split on newlines, scan each line for its label. -/
def parseSentimentResponse (text : String) : SentimentData :=
  (pySplitSep (pyStrip text) "\n").foldl updateSentiment
    { sentiment := none, confidence := none, explanation := none }

/-- AIService.analyze_sentiment.  available is the construction-time
flag; remote the outcome of the chat call (ignored when unavailable). -/
def analyze_sentiment (available : Bool) (remote : Remote)
    (article_content : String) : SentimentData :=
  if !available then fallback_sentiment
  else
    match remote with
    | .ok text => parseSentimentResponse text
    | .err => fallback_sentiment

/-- AIService.generate_summary. -/
def generate_summary (available : Bool) (remote : Remote)
    (article_title article_content : String) (max_length : Nat) : String :=
  if !available then fallback_summary article_content max_length
  else
    match remote with
    | .ok text => pyStrip text
    | .err => fallback_summary article_content max_length

/-- re.sub of a leading digit-run-dot-spaces group, as used to clean a
numbered key point line. -/
def stripLeadingNumber (s : String) : String :=
  let ds := s.data.takeWhile Char.isDigit
  match s.data.dropWhile Char.isDigit with
  | '.' :: rest => if ds ≠ [] then String.mk (rest.dropWhile pyIsSpace) else s
  | _ => s

/-- re.sub of a leading hyphen or bullet and spaces. -/
def stripLeadingBullet (s : String) : String :=
  match s.data with
  | c :: rest =>
    if c = '-' ∨ c = '•' then String.mk (rest.dropWhile pyIsSpace) else s
  | [] => s

/-- The line filter of AIService.generate_key_points: keep only stripped
lines starting with a digit, hyphen or bullet, remove the marker, and
keep the cleaned line when it is non-empty. -/
def keyPointOfLine (line : String) : Option String :=
  let l := pyStrip line
  match l.data with
  | [] => none
  | c :: _ =>
    if c.isDigit ∨ c = '-' ∨ c = '•' then
      let point := stripLeadingBullet (stripLeadingNumber l)
      if pyStrip point ≠ "" then some (pyStrip point) else none
    else none

/-- AIService.generate_key_points. -/
def generate_key_points (available : Bool) (remote : Remote)
    (article_content : String) (num_points : Nat) : List String :=
  if !available then fallback_key_points article_content num_points
  else
    match remote with
    | .ok text =>
      ((pySplitSep (pyStrip text) "\n").filterMap keyPointOfLine).take num_points
    | .err => fallback_key_points article_content num_points

/-! ## Date parsing (RSSService._parse_rss_date)

datetime.strptime is embedded for the six format strings the service
tries, following the regular expressions CPython builds for each
directive (case-insensitive matching, one-or-more whitespace for a
space in the format, full-string match).  The %Z directive is modelled
as accepting the portable timezone names GMT and UTC; fractional
seconds in a %z offset are not modelled. -/

/-- A parsed datetime: the result of a successful strptime call
followed by the datetime constructor checks.  tz is the UTC offset in
seconds when the format carried a %z directive, none for a naive
datetime. -/
structure PyDateTime where
  year : Nat
  month : Nat
  day : Nat
  hour : Nat
  minute : Nat
  second : Nat
  tz : Option Int
deriving DecidableEq, Repr

/-- Days in a month, with the Gregorian leap rule, as the datetime
constructor validates the day field. -/
def daysInMonth (y m : Nat) : Nat :=
  if m = 2 then
    if y % 4 = 0 ∧ (y % 100 ≠ 0 ∨ y % 400 = 0) then 29 else 28
  else if m = 4 ∨ m = 6 ∨ m = 9 ∨ m = 11 then 30
  else 31

/-- The datetime and timezone constructors: reject out-of-range fields
(this is where strptime values such as second 61 or a 24-hour offset
are turned into a ValueError, making the format attempt fail). -/
def mkDatetime (y mo d h mi s : Nat) (tz : Option Int) : Option PyDateTime :=
  if 1 ≤ y ∧ y ≤ 9999 ∧ 1 ≤ mo ∧ mo ≤ 12 ∧ 1 ≤ d ∧ d ≤ daysInMonth y mo
      ∧ h ≤ 23 ∧ mi ≤ 59 ∧ s ≤ 59
      ∧ (∀ off, tz = some off → off.natAbs < 86400) then
    some ⟨y, mo, d, h, mi, s, tz⟩
  else none

/-- One strptime directive or literal, consuming a prefix of the
remaining characters. -/
abbrev DirP (α : Type) := List Char → Option (α × List Char)

/-- A literal character of the format, matched case-insensitively
(the argument is given in lowercase). -/
def pLit (c : Char) : DirP Unit := fun input =>
  match input with
  | x :: rest => if x.toLower = c then some ((), rest) else none
  | [] => none

/-- A case-sensitive literal character. -/
def pLitExact (c : Char) : DirP Unit := fun input =>
  match input with
  | x :: rest => if x = c then some ((), rest) else none
  | [] => none

/-- Whitespace of the format string: one or more whitespace characters
of the input. -/
def pSpaces : DirP Unit := fun input =>
  match input with
  | x :: rest => if pyIsSpace x then some ((), rest.dropWhile pyIsSpace) else none
  | [] => none

/-- A name directive: the first listed name that is a prefix of the
input, compared in lowercase, with its associated value. -/
def pName (names : List (String × Nat)) : DirP Nat := fun input =>
  names.findSome? fun nv =>
    let cs := nv.1.data
    if (input.take cs.length).map Char.toLower = cs then
      some (nv.2, input.drop cs.length)
    else none

/-- The %a directive (abbreviated weekday name; the value is unused). -/
def pWeekdayName : DirP Nat :=
  pName [("mon", 0), ("tue", 1), ("wed", 2), ("thu", 3),
         ("fri", 4), ("sat", 5), ("sun", 6)]

/-- The %b directive (abbreviated month name). -/
def pMonthName : DirP Nat :=
  pName [("jan", 1), ("feb", 2), ("mar", 3), ("apr", 4),
         ("may", 5), ("jun", 6), ("jul", 7), ("aug", 8),
         ("sep", 9), ("oct", 10), ("nov", 11), ("dec", 12)]

/-- The %Z directive, modelled as the portable timezone names. -/
def pTzName : DirP Nat := pName [("gmt", 0), ("utc", 0)]

/-- A one-or-two-digit numeric directive: two digits when their value
passes ok2, otherwise one digit passing ok1, following the alternation
of the CPython directive regexes. -/
def pNum2 (ok2 ok1 : Nat → Bool) : DirP Nat := fun input =>
  match input with
  | [] => none
  | d1 :: rest1 =>
    if d1.isDigit then
      match rest1 with
      | d2 :: rest2 =>
        if d2.isDigit ∧ ok2 (digitVal d1 * 10 + digitVal d2) then
          some (digitVal d1 * 10 + digitVal d2, rest2)
        else if ok1 (digitVal d1) then some (digitVal d1, rest1) else none
      | [] => if ok1 (digitVal d1) then some (digitVal d1, rest1) else none
    else none

/-- The %d directive (day of month 1-31). -/
def pDay : DirP Nat := pNum2 (fun v => 1 ≤ v && v ≤ 31) (fun v => 1 ≤ v && v ≤ 9)

/-- The %m directive (month 1-12). -/
def pMonthNum : DirP Nat := pNum2 (fun v => 1 ≤ v && v ≤ 12) (fun v => 1 ≤ v && v ≤ 9)

/-- The %H directive (hour 0-23). -/
def pHour : DirP Nat := pNum2 (fun v => v ≤ 23) (fun v => v ≤ 9)

/-- The %M directive (minute 0-59). -/
def pMinute : DirP Nat := pNum2 (fun v => v ≤ 59) (fun v => v ≤ 9)

/-- The %S directive (second 0-61 at the regex level). -/
def pSecond : DirP Nat := pNum2 (fun v => v ≤ 61) (fun v => v ≤ 9)

/-- The %Y directive: exactly four digits. -/
def pYear : DirP Nat := fun input =>
  match input with
  | d1 :: d2 :: d3 :: d4 :: rest =>
    if d1.isDigit && d2.isDigit && d3.isDigit && d4.isDigit then
      some (digitVal d1 * 1000 + digitVal d2 * 100 + digitVal d3 * 10 + digitVal d4,
            rest)
    else none
  | _ => none

/-- Two digits with no range restriction, as inside a %z offset. -/
def pTwoDigits : DirP Nat := fun input =>
  match input with
  | d1 :: d2 :: rest =>
    if d1.isDigit && d2.isDigit then some (digitVal d1 * 10 + digitVal d2, rest)
    else none
  | _ => none

/-- Two digits whose value is below sixty (the minute and second
pairs of a %z offset, [0-5] then a digit in the directive regex). -/
def pSixtyPair : DirP Nat := fun input =>
  match input with
  | d1 :: d2 :: rest =>
    if d1.isDigit && d2.isDigit && decide (digitVal d1 ≤ 5) then
      some (digitVal d1 * 10 + digitVal d2, rest)
    else none
  | _ => none

/-- The %z directive: a sign, two hour digits, an optional colon,
two minute digits below sixty, then optional seconds below sixty
(whose colon use must agree with the minutes, as the post-regex
normalisation raises otherwise); or the single uppercase letter Z for
UTC.  Fractional seconds are not modelled.  Returns the offset in
seconds. -/
def pTzOffset : DirP Int := fun input =>
  match input with
  | 'Z' :: rest => some (0, rest)
  | c :: rest =>
    if c = '+' ∨ c = '-' then
      match pTwoDigits rest with
      | none => none
      | some (hh, rest1) =>
        let hasColon := match rest1 with
          | ':' :: _ => true
          | _ => false
        let rest1b := match rest1 with
          | ':' :: r => r
          | _ => rest1
        match pSixtyPair rest1b with
        | none => none
        | some (mm, rest2) =>
          let base : Int := (hh * 3600 + mm * 60 : Nat)
          let withSec : Option (Int × List Char) :=
            match rest2 with
            | ':' :: r =>
              if hasColon then
                match pSixtyPair r with
                | some (ss, r2) => some (base + (ss : Int), r2)
                | none => none
              else none
            | _ =>
              if hasColon then none
              else
                match pSixtyPair rest2 with
                | some (ss, r2) => some (base + (ss : Int), r2)
                | none => none
          let (total, restF) := withSec.getD (base, rest2)
          some (if c = '-' then -total else total, restF)
    else none
  | [] => none

/-- One element of a strptime format string: a directive or a literal
character. -/
inductive Directive where
  | lit (c : Char)
  | litZ
  | spaces
  | weekday
  | monthName
  | tzName
  | day
  | monthNum
  | hour
  | minute
  | second
  | year
  | tzOff
deriving DecidableEq, Repr

/-- The field values collected while matching a format, started from
the strptime defaults (1900-01-01 00:00:00, no offset). -/
structure StVals where
  y : Nat
  mo : Nat
  d : Nat
  h : Nat
  mi : Nat
  s : Nat
  tz : Option Int
deriving DecidableEq, Repr

/-- strptime defaults for fields not set by the format. -/
def stDefaults : StVals := ⟨1900, 1, 1, 0, 0, 0, none⟩

/-- Match one directive against the remaining input, updating the
collected fields. -/
def runDirective (st : StVals × List Char) (dct : Directive) :
    Option (StVals × List Char) :=
  match dct with
  | .lit c => (pLit c st.2).map fun r => (st.1, r.2)
  | .litZ => (pLitExact 'Z' st.2).map fun r => (st.1, r.2)
  | .spaces => (pSpaces st.2).map fun r => (st.1, r.2)
  | .weekday => (pWeekdayName st.2).map fun r => (st.1, r.2)
  | .monthName => (pMonthName st.2).map fun r => ({ st.1 with mo := r.1 }, r.2)
  | .tzName => (pTzName st.2).map fun r => (st.1, r.2)
  | .day => (pDay st.2).map fun r => ({ st.1 with d := r.1 }, r.2)
  | .monthNum => (pMonthNum st.2).map fun r => ({ st.1 with mo := r.1 }, r.2)
  | .hour => (pHour st.2).map fun r => ({ st.1 with h := r.1 }, r.2)
  | .minute => (pMinute st.2).map fun r => ({ st.1 with mi := r.1 }, r.2)
  | .second => (pSecond st.2).map fun r => ({ st.1 with s := r.1 }, r.2)
  | .year => (pYear st.2).map fun r => ({ st.1 with y := r.1 }, r.2)
  | .tzOff => (pTzOffset st.2).map fun r => ({ st.1 with tz := some r.1 }, r.2)

/-- Match a whole format against the input. -/
def runFormat : List Directive → StVals × List Char → Option (StVals × List Char)
  | [], st => some st
  | dct :: rest, st =>
    match runDirective st dct with
    | some st2 => runFormat rest st2
    | none => none

/-- datetime.strptime for one format: the regex must consume the whole
string, then the datetime constructor validates the fields. -/
def strptime (fmt : List Directive) (s : String) : Option PyDateTime :=
  match runFormat fmt (stDefaults, s.data) with
  | some (v, []) => mkDatetime v.y v.mo v.d v.h v.mi v.s v.tz
  | _ => none

/-- Format string "%a, %d %b %Y %H:%M:%S %Z". -/
def fmtA : List Directive :=
  [.weekday, .lit ',', .spaces, .day, .spaces, .monthName, .spaces, .year,
   .spaces, .hour, .lit ':', .minute, .lit ':', .second, .spaces, .tzName]

/-- Format string "%a, %d %b %Y %H:%M:%S %z". -/
def fmtB : List Directive :=
  [.weekday, .lit ',', .spaces, .day, .spaces, .monthName, .spaces, .year,
   .spaces, .hour, .lit ':', .minute, .lit ':', .second, .spaces, .tzOff]

/-- Format string "%a, %d %b %Y %H:%M:%S GMT" (literal letters). -/
def fmtC : List Directive :=
  [.weekday, .lit ',', .spaces, .day, .spaces, .monthName, .spaces, .year,
   .spaces, .hour, .lit ':', .minute, .lit ':', .second, .spaces,
   .lit 'g', .lit 'm', .lit 't']

/-- Format string "%Y-%m-%d %H:%M:%S". -/
def fmtD : List Directive :=
  [.year, .lit '-', .monthNum, .lit '-', .day, .spaces,
   .hour, .lit ':', .minute, .lit ':', .second]

/-- Format string "%Y-%m-%dT%H:%M:%S%z". -/
def fmtE : List Directive :=
  [.year, .lit '-', .monthNum, .lit '-', .day, .lit 't',
   .hour, .lit ':', .minute, .lit ':', .second, .tzOff]

/-- Format string "%Y-%m-%dT%H:%M:%SZ" (trailing literal letter). -/
def fmtF : List Directive :=
  [.year, .lit '-', .monthNum, .lit '-', .day, .lit 't',
   .hour, .lit ':', .minute, .lit ':', .second, .lit 'z']

/-- The ordered list of format attempts of RSSService._parse_rss_date. -/
def rssFormats : List (List Directive) :=
  [fmtA, fmtB, fmtC, fmtD, fmtE, fmtF]

/-- First format attempt that succeeds. -/
def firstParse : List (List Directive) → String → Option PyDateTime
  | [], _ => none
  | f :: fs, s =>
    match strptime f s with
    | some dt => some dt
    | none => firstParse fs s

/-- A digit character from a value below ten. -/
def digitChar (n : Nat) : Char := Char.ofNat (48 + n)

/-- Zero-padded two-digit decimal rendering, as the %02d fields of
datetime.isoformat (the arguments are below 100 wherever used). -/
def pad2 (n : Nat) : String :=
  String.mk [digitChar (n / 10 % 10), digitChar (n % 10)]

/-- Zero-padded four-digit decimal rendering, as the %04d year field. -/
def pad4 (n : Nat) : String :=
  String.mk [digitChar (n / 1000 % 10), digitChar (n / 100 % 10),
             digitChar (n / 10 % 10), digitChar (n % 10)]

/-- The UTC-offset suffix of datetime.isoformat: empty for a naive
datetime, otherwise a sign, hours and minutes, with a seconds part only
when non-zero. -/
def offsetSuffix : Option Int → String
  | none => ""
  | some off =>
    let a := off.natAbs
    (if off < 0 then "-" else "+")
      ++ pad2 (a / 3600) ++ ":" ++ pad2 (a / 60 % 60)
      ++ (if a % 60 = 0 then "" else ":" ++ pad2 (a % 60))

/-- datetime.isoformat() for the datetimes produced here (microsecond
is always zero, so it is omitted). -/
def PyDateTime.isoformat (dt : PyDateTime) : String :=
  pad4 dt.year ++ "-" ++ pad2 dt.month ++ "-" ++ pad2 dt.day
    ++ "T" ++ pad2 dt.hour ++ ":" ++ pad2 dt.minute ++ ":" ++ pad2 dt.second
    ++ offsetSuffix dt.tz

/-- RSSService._parse_rss_date: try the formats in order; on the first
success return the isoformat rendering, otherwise return the input
unchanged. -/
def parse_rss_date (date_string : String) : String :=
  match firstParse rssFormats date_string with
  | some dt => dt.isoformat
  | none => date_string

/-! ## An independent ISO-8601 validity checker

Written from the specification wording (a valid ISO-8601 timestamp,
with an optional numeric UTC offset), to be compared with the strings
the service produces; it reads the characters back rather than reusing
the rendering functions. -/

/-- Validity of an optional seconds part of a UTC offset. -/
def checkOffSec : List Char → Bool
  | [] => true
  | s2 :: e1 :: e2 :: [] =>
    (s2 == ':') && e1.isDigit && e2.isDigit
      && decide (digitVal e1 * 10 + digitVal e2 ≤ 59)
  | _ => false

/-- Validity of the UTC-offset suffix of an ISO-8601 timestamp:
absent, or sign plus in-range hours and minutes, with optional
in-range seconds. -/
def checkOffsetChars : List Char → Bool
  | [] => true
  | sg :: h1 :: h2 :: s1 :: m1 :: m2 :: rest =>
    (sg == '+' || sg == '-') && h1.isDigit && h2.isDigit
      && (s1 == ':') && m1.isDigit && m2.isDigit
      && decide (digitVal h1 * 10 + digitVal h2 ≤ 23)
      && decide (digitVal m1 * 10 + digitVal m2 ≤ 59)
      && checkOffSec rest
  | _ => false

/-- Validity of an ISO-8601 timestamp: four-digit year, two-digit
month, day, hour, minute and second with the standard separators, all
fields in range (day against the month length), then a valid offset
suffix. -/
def isValidISO8601 (s : String) : Bool :=
  match s.data with
  | y1 :: y2 :: y3 :: y4 :: p1 :: a1 :: a2 :: p2 :: b1 :: b2 :: p3 ::
      h1 :: h2 :: p4 :: n1 :: n2 :: p5 :: c1 :: c2 :: rest =>
    ([y1, y2, y3, y4, a1, a2, b1, b2, h1, h2, n1, n2, c1, c2].all Char.isDigit)
      && (p1 == '-') && (p2 == '-') && (p3 == 'T') && (p4 == ':') && (p5 == ':')
      && (let y := digitVal y1 * 1000 + digitVal y2 * 100
                    + digitVal y3 * 10 + digitVal y4
          let mo := digitVal a1 * 10 + digitVal a2
          let d := digitVal b1 * 10 + digitVal b2
          decide (1 ≤ y) && decide (1 ≤ mo) && decide (mo ≤ 12)
            && decide (1 ≤ d) && decide (d ≤ daysInMonth y mo)
            && decide (digitVal h1 * 10 + digitVal h2 ≤ 23)
            && decide (digitVal n1 * 10 + digitVal n2 ≤ 59)
            && decide (digitVal c1 * 10 + digitVal c2 ≤ 59))
      && checkOffsetChars rest
  | _ => false

/-- The range conditions satisfied by every datetime the constructor
model returns. -/
def PyDateTime.InRange (dt : PyDateTime) : Prop :=
  1 ≤ dt.year ∧ dt.year ≤ 9999 ∧ 1 ≤ dt.month ∧ dt.month ≤ 12 ∧
  1 ≤ dt.day ∧ dt.day ≤ daysInMonth dt.year dt.month ∧
  dt.hour ≤ 23 ∧ dt.minute ≤ 59 ∧ dt.second ≤ 59 ∧
  (∀ off, dt.tz = some off → off.natAbs < 86400)

/-! ## HTML sanitisation (RSSService._clean_html)

The output of the external HTML parser is modelled as a forest of
nodes; an HtmlDoc carries the raw markup string together with the
parse result, where none stands for the parser raising. -/

mutual
inductive Html where
  | text : String → Html
  | elem : String → HtmlList → Html

inductive HtmlList where
  | nil : HtmlList
  | cons : Html → HtmlList → HtmlList
end

/-- The tag test of soup(["script", "style"]). -/
def isScriptOrStyle : Html → Bool
  | .text _ => false
  | .elem nm _ => nm == "script" || nm == "style"

mutual
/-- decompose of every script and style element, at any depth. -/
def decomposeNode : Html → Html
  | .text t => .text t
  | .elem nm cs => .elem nm (decomposeList cs)

/-- decompose over a list of sibling nodes. -/
def decomposeList : HtmlList → HtmlList
  | .nil => .nil
  | .cons c cs =>
    if isScriptOrStyle c then decomposeList cs
    else .cons (decomposeNode c) (decomposeList cs)
end

mutual
/-- soup.get_text(): concatenation of all text nodes in order. -/
def getTextNode : Html → String
  | .text t => t
  | .elem _ cs => getTextList cs

/-- get_text over a list of sibling nodes. -/
def getTextList : HtmlList → String
  | .nil => ""
  | .cons c cs => getTextNode c ++ getTextList cs
end

mutual
/-- No script or style element occurs anywhere in the node. -/
def freeOfScriptStyle : Html → Bool
  | .text _ => true
  | .elem nm cs =>
    !(nm == "script" || nm == "style") && freeOfScriptStyleList cs

/-- No script or style element occurs anywhere in the list. -/
def freeOfScriptStyleList : HtmlList → Bool
  | .nil => true
  | .cons c cs => freeOfScriptStyle c && freeOfScriptStyleList cs
end

/-- Python str.splitlines: break on line boundaries, treating a CRLF
pair as one boundary, with no trailing empty line. -/
def pyIsLineBreak (c : Char) : Bool :=
  c == '\n' || c == '\r' || c == '\x0b' || c == '\x0c' ||
  c == '\x1c' || c == '\x1d' || c == '\x1e' || c == '\x85' ||
  c == '\u2028' || c == '\u2029'

/-- Worker for pySplitlines, carrying the current line in reverse. -/
def splitlinesAux : List Char → List Char → List String
  | [], acc => if acc.isEmpty then [] else [String.mk acc.reverse]
  | '\r' :: '\n' :: rest, acc => String.mk acc.reverse :: splitlinesAux rest []
  | c :: rest, acc =>
    if pyIsLineBreak c then String.mk acc.reverse :: splitlinesAux rest []
    else splitlinesAux rest (c :: acc)

/-- Python str.splitlines. -/
def pySplitlines (s : String) : List String := splitlinesAux s.data []

/-- The whitespace clean-up of _clean_html: strip each line, split
lines on double spaces, strip the phrases, and join the non-empty
chunks with single spaces. -/
def collapseWhitespace (text : String) : String :=
  let lines := (pySplitlines text).map pyStrip
  let chunks := (lines.map (fun line => (pySplitSep line "  ").map pyStrip)).flatten
  String.intercalate " " (chunks.filter (fun c => c ≠ ""))

/-- A raw markup string together with its parse: none models
BeautifulSoup raising on it. -/
structure HtmlDoc where
  raw : String
  soup : Option HtmlList

/-- RSSService._clean_html: empty input gives an empty string; a
parsed soup is stripped of script and style elements, its text
extracted, whitespace collapsed and the result cut at 1000
characters; a parser failure degrades to the first 500 raw
characters. -/
def clean_html (doc : HtmlDoc) : String :=
  if doc.raw = "" then ""
  else
    match doc.soup with
    | some ns => pyTake (collapseWhitespace (getTextList (decomposeList ns))) 1000
    | none => pyTake doc.raw 500

/-- Marker check used to state the script/style-free property on the
final strings: an occurrence of an opening script or style tag. -/
def containsScriptOrStyleTag (s : String) : Bool :=
  decide (2 ≤ (pySplitSep s "<script").length)
    || decide (2 ≤ (pySplitSep s "<style").length)

/-! ## Feed parsing (RSSService.fetch_rss_feed and _parse_article_xml)

An RSS item dictionary is modelled as a structure of optional fields,
one per key the parser reads, plus the list of remaining keys (only
their number matters, for the len() of a dict).  The category value
may be a single string or a list. -/

/-- The category key of an item: singular or a list. -/
inductive Categories where
  | one (c : String)
  | many (cs : List String)

/-- An RSS item as xmltodict delivers it.  A missing field models a
missing key.  The fields holding markup carry an HtmlDoc. -/
structure Item where
  title : Option String := none
  link : Option String := none
  pubDate : Option String := none
  updated : Option String := none
  author : Option String := none
  dcCreator : Option String := none
  description : Option HtmlDoc := none
  summary : Option HtmlDoc := none
  contentEncoded : Option HtmlDoc := none
  content : Option HtmlDoc := none
  category : Option Categories := none
  guid : Option String := none
  extraKeys : List String := []

/-- len() of the item dictionary: the number of keys present. -/
def Item.numKeys (it : Item) : Nat :=
  ([it.title.isSome, it.link.isSome, it.pubDate.isSome, it.updated.isSome,
    it.author.isSome, it.dcCreator.isSome, it.description.isSome,
    it.summary.isSome, it.contentEncoded.isSome, it.content.isSome,
    it.category.isSome, it.guid.isSome].count true) + it.extraKeys.length

/-- The normalized article dictionary built by _parse_article_xml.
published_date is an Option because the key is only written when the
item carried a non-empty pubDate. -/
structure Article where
  title : String
  link : String
  published : String
  updated : String
  author : String
  summary : String
  content : String
  tags : List String
  guid : String
  source : String
  published_date : Option String

/-- The body of RSSService._parse_article_xml.  None of its steps can
raise on a structured item, so the surrounding try/except never fires
and the article is always produced. -/
def parse_article_core (item : Item) : Article :=
  let pub_date := item.pubDate.getD ""
  { title := item.title.getD "Untitled"
    link := item.link.getD ""
    published := pub_date
    updated := item.updated.getD (item.pubDate.getD "")
    author := item.author.getD (item.dcCreator.getD "Unknown")
    summary :=
      match item.description with
      | some v => clean_html v
      | none =>
        match item.summary with
        | some v => clean_html v
        | none => ""
    content :=
      match item.contentEncoded with
      | some v => clean_html v
      | none =>
        match item.content with
        | some v => clean_html v
        | none => ""
    tags :=
      (match item.category with
       | none => []
       | some (.one c) => [c]
       | some (.many cs) => cs).filter (fun c => c ≠ "")
    guid := item.guid.getD (item.link.getD "")
    source := "RSS Feed"
    published_date :=
      if pub_date ≠ "" then some (parse_rss_date pub_date) else none }

/-- RSSService._parse_article_xml. -/
def parse_article_xml (item : Item) : Option Article :=
  some (parse_article_core item)

/-- The value of the item key of a channel: absent, a bare object for
a single item, or a list. -/
inductive ItemsValue where
  | absent
  | single (it : Item)
  | list (its : List Item)

/-- len(channel.get(item-key, [])): zero when absent, the number of
keys of the bare dictionary, or the list length. -/
def pyLenItems : ItemsValue → Nat
  | .absent => 0
  | .single it => it.numKeys
  | .list its => its.length

/-- The single-item normalization: wrap a bare object in a list. -/
def normalizeItems : ItemsValue → List Item
  | .absent => []
  | .single it => [it]
  | .list its => its

/-- The channel element of an RSS document. -/
structure Channel where
  title : Option String := none
  description : Option String := none
  link : Option String := none
  lastBuildDate : Option String := none
  pubDate : Option String := none
  language : Option String := none
  item : ItemsValue := .absent

/-- The feed_info dictionary. -/
structure FeedInfo where
  title : String
  description : String
  link : String
  updated : String
  language : String
  total_entries : Nat

/-- The dictionary returned by a successful fetch_rss_feed. -/
structure FeedResult where
  feed_info : FeedInfo
  articles : List Article
  fetch_time : String
  success : Bool

/-- The parsed response body: either it has the rss.channel top-level
shape or it does not. -/
inductive XmlDoc where
  | rssChannel (c : Channel)
  | otherShape

/-- Outcome of the network fetch and XML parse, supplied as input to
the model: a requests exception, an xmltodict exception, or a parsed
document. -/
inductive FetchOutcome where
  | requestError
  | xmlParseError
  | parsed (doc : XmlDoc)

/-- RSSService.fetch_rss_feed.  now stands for datetime.now() at the
moment of the call.  Every failure path returns none, the model of
the Python None. -/
def fetch_rss_feed (feed_url : String) (outcome : FetchOutcome)
    (now : String) : Option FeedResult :=
  match outcome with
  | .requestError => none
  | .xmlParseError => none
  | .parsed .otherShape => none
  | .parsed (.rssChannel channel) =>
    let feed_info : FeedInfo :=
      { title := channel.title.getD "Unknown Feed"
        description := channel.description.getD ""
        link := channel.link.getD feed_url
        updated := channel.lastBuildDate.getD (channel.pubDate.getD "")
        language := channel.language.getD "en"
        total_entries := pyLenItems channel.item }
    let items := normalizeItems channel.item
    let articles := (items.take 20).filterMap parse_article_xml
    some { feed_info := feed_info, articles := articles,
           fetch_time := now, success := true }

/-- A JSON response of the fetch-feed route: HTTP status and body
fields. -/
structure JsonResponse where
  status : Nat
  success : Bool
  error : Option String
  payload : Option FeedResult

/-- The api/fetch-feed route of app.py: missing or empty url gives a
400; a falsy fetch result gives the one generic 500; otherwise the
data is returned. -/
def api_fetch_feed (url_param : Option String) (outcome : FetchOutcome)
    (now : String) : JsonResponse :=
  match url_param with
  | none => ⟨400, false, some "Feed URL is required", none⟩
  | some feed_url =>
    if feed_url = "" then ⟨400, false, some "Feed URL is required", none⟩
    else
      match fetch_rss_feed feed_url outcome now with
      | none => ⟨500, false, some "Failed to fetch or parse RSS feed", none⟩
      | some d => ⟨200, true, none, some d⟩

/-- The single bare item of the specification example: a dictionary
with two keys. -/
def exampleSingleItem : Item :=
  { title := some "A", pubDate := some "Mon, 01 Jan 2024 10:00:00 GMT" }

/-- A markup string on which the parser raises, so that sanitisation
degrades to the raw prefix. -/
def badDoc : HtmlDoc := { raw := "<script>alert(1)</script>", soup := none }

/-- A parsed soup containing a paragraph and a script element. -/
def sampleSoup : HtmlList :=
  HtmlList.cons (Html.elem "p" (HtmlList.cons (Html.text "hello") HtmlList.nil))
    (HtmlList.cons (Html.elem "script"
      (HtmlList.cons (Html.text "evil()") HtmlList.nil)) HtmlList.nil)

/-- The document of the witness for claim C6. -/
def sampleDoc : HtmlDoc :=
  { raw := "<p>hello</p><script>evil()</script>", soup := some sampleSoup }

/-- Any digit character produced from a value modulo ten is a digit. -/
theorem isDigit_digitChar_mod (n : Nat) : (digitChar (n % 10)).isDigit = true := by
  have h : n % 10 < 10 := Nat.mod_lt _ (by norm_num)
  have hall : ∀ k, k < 10 → (digitChar k).isDigit = true := by decide
  exact hall _ h

/-- Reading a digit character back gives the value it was made from. -/
theorem digitVal_digitChar_mod (n : Nat) : digitVal (digitChar (n % 10)) = n % 10 := by
  have h : n % 10 < 10 := Nat.mod_lt _ (by norm_num)
  have hall : ∀ k, k < 10 → digitVal (digitChar k) = k := by decide
  exact hall _ h

/-- The offset suffix written for an in-range offset passes the offset
check of the ISO-8601 validity checker. -/
theorem checkOffsetChars_offsetSuffix (tz : Option Int)
    (htz : ∀ off, tz = some off → off.natAbs < 86400) :
    checkOffsetChars (offsetSuffix tz).data = true := by
  match tz with
  | none => rfl
  | some off =>
    have ha : off.natAbs < 86400 := htz off rfl
    simp only [offsetSuffix, String.data_append]
    have hplus : ("+" : String).data = ['+'] := rfl
    have hminus : ("-" : String).data = ['-'] := rfl
    have hcolon : (":" : String).data = [':'] := rfl
    have hempty : ("" : String).data = [] := rfl
    by_cases hsgn : off < 0 <;> by_cases hsec : off.natAbs % 60 = 0 <;>
      simp only [hsgn, hsec, if_pos, if_neg, ite_true, ite_false,
        hplus, hminus, hcolon, hempty, pad2, String.data_append,
        List.cons_append, List.nil_append, checkOffsetChars, checkOffSec,
        isDigit_digitChar_mod, digitVal_digitChar_mod, Bool.and_true,
        Bool.true_and, decide_eq_true_eq, beq_self_eq_true, Bool.or_self,
        Bool.or_true, Bool.true_or, Bool.and_eq_true] <;>
      omega

/-- No month has more than 31 days. -/
theorem daysInMonth_le_31 (y m : Nat) : daysInMonth y m ≤ 31 := by
  unfold daysInMonth
  split <;> [split <;> omega; (split <;> omega)]

/-- The isoformat rendering of an in-range datetime passes the
ISO-8601 validity checker. -/
theorem isValidISO8601_isoformat (dt : PyDateTime)
    (hy1 : 1 ≤ dt.year) (hy2 : dt.year ≤ 9999)
    (hmo1 : 1 ≤ dt.month) (hmo2 : dt.month ≤ 12)
    (hd1 : 1 ≤ dt.day) (hd2 : dt.day ≤ daysInMonth dt.year dt.month)
    (hh : dt.hour ≤ 23) (hmi : dt.minute ≤ 59) (hs : dt.second ≤ 59)
    (htz : ∀ off, dt.tz = some off → off.natAbs < 86400) :
    isValidISO8601 dt.isoformat = true := by
  obtain ⟨y, mo, d, h, mi, s, tz⟩ := dt
  simp only at hy1 hy2 hmo1 hmo2 hd1 hd2 hh hmi hs htz
  have hoff := checkOffsetChars_offsetSuffix tz htz
  have hd31 : d ≤ 31 := le_trans hd2 (daysInMonth_le_31 y mo)
  have hdash : ("-" : String).data = ['-'] := rfl
  have hT : ("T" : String).data = ['T'] := rfl
  have hcolon : (":" : String).data = [':'] := rfl
  simp only [isValidISO8601, PyDateTime.isoformat, pad4, pad2,
    String.data_append, hdash, hT, hcolon, List.cons_append, List.nil_append,
    List.all_cons, List.all_nil, isDigit_digitChar_mod, digitVal_digitChar_mod,
    beq_self_eq_true, Bool.and_true, Bool.true_and, Bool.and_eq_true,
    decide_eq_true_eq]
  have hyE : y / 1000 % 10 * 1000 + y / 100 % 10 * 100 + y / 10 % 10 * 10
      + y % 10 = y := by omega
  have hmoE : mo / 10 % 10 * 10 + mo % 10 = mo := by omega
  have hdE : d / 10 % 10 * 10 + d % 10 = d := by omega
  have hhE : h / 10 % 10 * 10 + h % 10 = h := by omega
  have hmiE : mi / 10 % 10 * 10 + mi % 10 = mi := by omega
  have hsE : s / 10 % 10 * 10 + s % 10 = s := by omega
  rw [hyE, hmoE, hdE, hhE, hmiE, hsE]
  exact ⟨⟨⟨⟨⟨⟨⟨⟨hy1, hmo1⟩, hmo2⟩, hd1⟩, hd2⟩, hh⟩, hmi⟩, hs⟩, hoff⟩

/-- mkDatetime only returns in-range datetimes. -/
theorem mkDatetime_inRange {y mo d h mi s : Nat} {tz : Option Int}
    {dt : PyDateTime} (hmk : mkDatetime y mo d h mi s tz = some dt) :
    dt.InRange := by
  unfold mkDatetime at hmk
  split at hmk
  · rename_i hc
    cases hmk
    exact hc
  · cases hmk

/-- strptime only returns in-range datetimes. -/
theorem strptime_inRange {fmt : List Directive} {s : String}
    {dt : PyDateTime} (hp : strptime fmt s = some dt) : dt.InRange := by
  unfold strptime at hp
  split at hp
  · exact mkDatetime_inRange hp
  · cases hp

/-- firstParse only returns in-range datetimes. -/
theorem firstParse_inRange : ∀ (fs : List (List Directive)) (s : String)
    (dt : PyDateTime), firstParse fs s = some dt → dt.InRange := by
  intro fs
  induction fs with
  | nil => intro s dt hp; cases hp
  | cons f fs ih =>
    intro s dt hp
    cases hsf : strptime f s with
    | some dt2 =>
      simp only [firstParse, hsf] at hp
      cases hp
      exact strptime_inRange hsf
    | none =>
      simp only [firstParse, hsf] at hp
      exact ih s dt hp

/-- The rendering of any in-range datetime is a valid ISO-8601
timestamp. -/
theorem isoformat_valid_of_inRange {dt : PyDateTime} (h : dt.InRange) :
    isValidISO8601 dt.isoformat = true := by
  obtain ⟨h1, h2, h3, h4, h5, h6, h7, h8, h9, h10⟩ := h
  exact isValidISO8601_isoformat dt h1 h2 h3 h4 h5 h6 h7 h8 h9 h10

mutual
/-- After decompose, a node is free of script and style elements
(assuming it was not itself one, as decomposeList guarantees). -/
theorem freeOfScriptStyle_decomposeNode (h : Html)
    (hn : isScriptOrStyle h = false) :
    freeOfScriptStyle (decomposeNode h) = true := by
  match h with
  | .text t => rfl
  | .elem nm cs =>
    simp only [decomposeNode, freeOfScriptStyle, Bool.and_eq_true,
      Bool.not_eq_true']
    exact ⟨by simpa [isScriptOrStyle] using hn,
           freeOfScriptStyleList_decomposeList cs⟩

/-- After decompose, a node list is free of script and style
elements. -/
theorem freeOfScriptStyleList_decomposeList (l : HtmlList) :
    freeOfScriptStyleList (decomposeList l) = true := by
  match l with
  | .nil => rfl
  | .cons c cs =>
    by_cases hc : isScriptOrStyle c = true
    · simp only [decomposeList, hc, if_pos]
      exact freeOfScriptStyleList_decomposeList cs
    · simp only [decomposeList, hc, if_neg, Bool.false_eq_true,
        not_false_eq_true, ite_false, freeOfScriptStyleList, Bool.and_eq_true]
      exact ⟨freeOfScriptStyle_decomposeNode c (by simpa using hc),
             freeOfScriptStyleList_decomposeList cs⟩
end

/-! ## Helper lemmas for the claims -/

/-- The split worker never returns an empty list. -/
theorem splitSepCore_ne_nil (c0 : Char) (cs : List Char) :
    ∀ (fuel : Nat) (l acc : List Char), splitSepCore c0 cs fuel l acc ≠ [] := by
  intro fuel
  induction fuel with
  | zero => intro l acc; simp [splitSepCore]
  | succ n ih =>
    intro l acc
    match l with
    | [] => simp [splitSepCore]
    | c :: rest =>
      rw [splitSepCore]
      split
      · simp
      · exact ih rest (c :: acc)

/-- Python split never returns an empty list. -/
theorem pySplitSep_ne_nil (s sep : String) : pySplitSep s sep ≠ [] := by
  unfold pySplitSep
  match sep.data with
  | [] => simp
  | c0 :: cs => exact splitSepCore_ne_nil c0 cs s.data.length s.data []

/-! ## The claims about the article-intelligence service -/

/-- Claim C8: for every input content, analyze_sentiment in
unavailable mode, and on any remote-path exception, returns exactly
the fixed neutral result with sentiment neutral, confidence 50 and a
fixed non-empty explanation. -/
theorem claim_C8_sentiment_fallback (content : String) (remote : Remote) :
    analyze_sentiment false remote content = fallback_sentiment ∧
    analyze_sentiment true Remote.err content = fallback_sentiment ∧
    fallback_sentiment.sentiment = some "neutral" ∧
    fallback_sentiment.confidence = some 50 ∧
    fallback_sentiment.explanation
      = some "Sentiment analysis not available without AI service" ∧
    "Sentiment analysis not available without AI service" ≠ "" :=
  ⟨rfl, rfl, rfl, rfl, rfl, by decide⟩

/-- Claim C10: the fallback summary of empty content is the fixed
non-empty sentinel string for every maxLength, both in unavailable
mode and on a remote failure. -/
theorem claim_C10_empty_content_summary (maxLength : Nat) (title : String)
    (remote : Remote) :
    generate_summary false remote title "" maxLength
      = "No content available for summary." ∧
    generate_summary true Remote.err title "" maxLength
      = "No content available for summary." ∧
    "No content available for summary." ≠ "" :=
  ⟨rfl, rfl, by decide⟩

/-- Claim C5, counterexample: at content "" (word count 0, hence at
most maxLength) the fallback summary is the sentinel, not the content
unchanged. -/
theorem claim_C5_counterexample :
    (pySplitWs "").length ≤ 3 ∧
    generate_summary false Remote.err "T" "" 3
      = "No content available for summary." ∧
    generate_summary false Remote.err "T" "" 3 ≠ "" := by
  refine ⟨by decide, rfl, by decide⟩

/-- Claim C5 as amended: for non-empty content, the fallback summary
(unavailable mode or remote failure) returns the content unchanged
when its word count is at most maxLength, and otherwise the first
maxLength words joined by single spaces with an ellipsis appended. -/
theorem claim_C5_fallback_summary (title content : String) (remote : Remote)
    (maxLength : Nat) (hne : content ≠ "") :
    ((pySplitWs content).length ≤ maxLength →
      generate_summary false remote title content maxLength = content ∧
      generate_summary true Remote.err title content maxLength = content) ∧
    (maxLength < (pySplitWs content).length →
      generate_summary false remote title content maxLength
        = String.intercalate " " ((pySplitWs content).take maxLength) ++ "..." ∧
      generate_summary true Remote.err title content maxLength
        = String.intercalate " " ((pySplitWs content).take maxLength) ++ "...") := by
  constructor
  · intro hle
    constructor <;> simp [generate_summary, fallback_summary, hne, hle]
  · intro hlt
    have hnle : ¬ (pySplitWs content).length ≤ maxLength := by omega
    constructor <;> simp [generate_summary, fallback_summary, hne, hnle]

/-- Witness for claim C5 at the specification example. -/
theorem claim_C5_witness :
    generate_summary false Remote.err "T" "one two three four five" 3
      = "one two three..." := by
  have h := (claim_C5_fallback_summary "T" "one two three four five"
    Remote.err 3 (by decide)).2 (by decide)
  rw [h.1]
  decide

/-- Claim C9: the fallback key points of empty content are the
one-element sentinel list, and of non-empty content the first
numPoints fragments of the split on the dot-space boundary. -/
theorem claim_C9_key_points_fallback (content : String) (numPoints : Nat)
    (remote : Remote) (hne : content ≠ "") :
    generate_key_points false remote "" numPoints = ["No content available"] ∧
    (generate_key_points false remote "" numPoints).length = 1 ∧
    generate_key_points true Remote.err "" numPoints = ["No content available"] ∧
    generate_key_points false remote content numPoints
      = (pySplitSep content ". ").take numPoints ∧
    generate_key_points true Remote.err content numPoints
      = (pySplitSep content ". ").take numPoints := by
  refine ⟨rfl, rfl, rfl, ?_, ?_⟩ <;>
    simp [generate_key_points, fallback_key_points, hne,
      pySplitSep_ne_nil content ". "]

/-- Witness for claim C9 at a concrete three-sentence content. -/
theorem claim_C9_witness :
    generate_key_points false Remote.err "" 5 = ["No content available"] ∧
    generate_key_points false Remote.err "a. b. c" 2 = ["a", "b"] := by
  have h := claim_C9_key_points_fallback "a. b. c" 2 Remote.err (by decide)
  refine ⟨h.1, ?_⟩
  rw [h.2.2.2.1]
  decide

/-- Claim C2, counterexample: in available mode, the sentiment result
parsed from a response that does not follow the requested format has
none of the three fields present. -/
theorem claim_C2_counterexample :
    (analyze_sentiment true (Remote.ok "hello") "some content").sentiment = none ∧
    (analyze_sentiment true (Remote.ok "hello") "some content").confidence = none ∧
    (analyze_sentiment true (Remote.ok "hello") "some content").explanation = none :=
  ⟨rfl, rfl, rfl⟩

/-- Claim C2 as amended: every sentiment result produced through the
fallback path (unavailable mode or remote failure) has all three
fields present; the available-mode result parsed from the response
text may omit any of them. -/
theorem claim_C2_fallback_fully_populated (content : String) (remote : Remote) :
    ((analyze_sentiment false remote content).sentiment.isSome = true ∧
     (analyze_sentiment false remote content).confidence.isSome = true ∧
     (analyze_sentiment false remote content).explanation.isSome = true) ∧
    ((analyze_sentiment true Remote.err content).sentiment.isSome = true ∧
     (analyze_sentiment true Remote.err content).confidence.isSome = true ∧
     (analyze_sentiment true Remote.err content).explanation.isSome = true) :=
  ⟨⟨rfl, rfl, rfl⟩, ⟨rfl, rfl, rfl⟩⟩

/-! ## The claims about date normalization -/

/-- Claim C1, counterexample: for a pubDate matching none of the known
format patterns, the parsed article carries the raw string in its
parsed-date field; the field is not null, as per-item parsing also
does not fail. -/
theorem claim_C1_counterexample :
    firstParse rssFormats "not a date" = none ∧
    (parse_article_core { pubDate := some "not a date" }).published_date
      = some "not a date" ∧
    (parse_article_core { pubDate := some "not a date" }).published_date ≠ none ∧
    (parse_article_xml { pubDate := some "not a date" }).isSome = true :=
  ⟨by decide, by decide, by decide, rfl⟩

/-- Claim C1 as amended: for a non-empty pubDate matching one of the
known patterns, the parsed date field holds the isoformat rendering of
the first matching pattern, a valid ISO-8601 timestamp; for a pubDate
matching none, the field holds the original raw string (not null); the
raw string is always preserved in the published field and per-item
parsing never fails. -/
theorem claim_C1_date_normalization (item : Item) (s : String)
    (hpd : item.pubDate = some s) (hne : s ≠ "") :
    (∀ dt, firstParse rssFormats s = some dt →
      (parse_article_core item).published_date = some dt.isoformat ∧
      isValidISO8601 dt.isoformat = true) ∧
    (firstParse rssFormats s = none →
      (parse_article_core item).published_date = some s) ∧
    (parse_article_core item).published = s ∧
    (parse_article_xml item).isSome = true := by
  have hpub : (parse_article_core item).published_date
      = some (parse_rss_date s) := by
    simp [parse_article_core, hpd, hne]
  refine ⟨?_, ?_, ?_, rfl⟩
  · intro dt hdt
    constructor
    · rw [hpub]
      simp [parse_rss_date, hdt]
    · exact isoformat_valid_of_inRange (firstParse_inRange rssFormats s dt hdt)
  · intro hnone
    rw [hpub]
    simp [parse_rss_date, hnone]
  · simp [parse_article_core, hpd]

/-- Witness for claim C1 at the specification example date. -/
theorem claim_C1_witness :
    (parse_article_core
        { pubDate := some "Mon, 01 Jan 2024 10:00:00 GMT" }).published_date
      = some "2024-01-01T10:00:00" ∧
    isValidISO8601 "2024-01-01T10:00:00" = true := by
  have h := claim_C1_date_normalization
    { pubDate := some "Mon, 01 Jan 2024 10:00:00 GMT" }
    "Mon, 01 Jan 2024 10:00:00 GMT" rfl (by decide)
  have hfp : firstParse rssFormats "Mon, 01 Jan 2024 10:00:00 GMT"
      = some ⟨2024, 1, 1, 10, 0, 0, none⟩ := by decide
  have h2 := h.1 _ hfp
  have hiso : PyDateTime.isoformat ⟨2024, 1, 1, 10, 0, 0, none⟩
      = "2024-01-01T10:00:00" := by decide
  rw [hiso] at h2
  exact h2

/-! ## The claims about the feed pipeline -/

/-- Every item yields an article: the filterMap over the always-some
item parser is a map of its body. -/
theorem filterMap_parse_article_xml (l : List Item) :
    l.filterMap parse_article_xml = l.map parse_article_core := by
  induction l with
  | nil => rfl
  | cons a as ih => simp [List.filterMap_cons, parse_article_xml, ih]

/-- Claim C3: on a channel carrying one bare item object the fetch
normalizes the articles to a one-element list, but total_entries is
computed as len() of the bare dictionary, which counts its keys: the
example item has two keys, so total_entries is 2, not 1. -/
theorem claim_C3_single_item_normalization :
    ∃ r, fetch_rss_feed "http://example.com/feed"
        (FetchOutcome.parsed (XmlDoc.rssChannel
          { item := ItemsValue.single exampleSingleItem }))
        "2024-01-02T00:00:00" = some r
      ∧ r.articles.length = 1
      ∧ r.articles.map Article.title = ["A"]
      ∧ r.articles.map Article.published_date = [some "2024-01-01T10:00:00"]
      ∧ r.feed_info.total_entries = 2
      ∧ r.feed_info.total_entries ≠ 1
      ∧ r.success = true := by
  refine ⟨_, rfl, ?_, ?_, ?_, ?_, ?_, ?_⟩ <;> decide

/-- Claim C7: a channel whose item list has more than twenty entries
yields exactly the first twenty, in document order, with no error. -/
theorem claim_C7_item_cap (its : List Item) (c : Channel) (url now : String)
    (hc : c.item = ItemsValue.list its) (h20 : 20 < its.length) :
    ∃ r, fetch_rss_feed url (FetchOutcome.parsed (XmlDoc.rssChannel c)) now
        = some r
      ∧ r.articles = (its.take 20).map parse_article_core
      ∧ r.articles.length = 20
      ∧ r.success = true := by
  refine ⟨_, rfl, ?_, ?_, rfl⟩
  · show ((normalizeItems c.item).take 20).filterMap parse_article_xml = _
    rw [hc]
    exact filterMap_parse_article_xml _
  · show (((normalizeItems c.item).take 20).filterMap parse_article_xml).length = 20
    rw [hc, filterMap_parse_article_xml]
    simp only [normalizeItems, List.length_map, List.length_take]
    omega

/-- Witness for claim C7 on a twenty-one item channel. -/
theorem claim_C7_witness :
    ∃ r, fetch_rss_feed "http://example.com/feed"
        (FetchOutcome.parsed (XmlDoc.rssChannel
          { item := ItemsValue.list (List.replicate 21 {}) }))
        "t0" = some r
      ∧ r.articles = ((List.replicate 21 ({} : Item)).take 20).map parse_article_core
      ∧ r.articles.length = 20
      ∧ r.success = true :=
  claim_C7_item_cap (List.replicate 21 {}) _ _ _ rfl (by decide)

/-- Claim C4, counterexample: a body without the rss.channel shape and
a network failure produce the very same fetch value (None) and the
very same HTTP response, so the two failure kinds cannot be told
apart at the boundary. -/
theorem claim_C4_counterexample :
    fetch_rss_feed "http://example.com/feed" FetchOutcome.requestError "t0"
      = fetch_rss_feed "http://example.com/feed"
          (FetchOutcome.parsed XmlDoc.otherShape) "t0" ∧
    fetch_rss_feed "http://example.com/feed"
        (FetchOutcome.parsed XmlDoc.otherShape) "t0" = none ∧
    api_fetch_feed (some "http://example.com/feed") FetchOutcome.requestError "t0"
      = api_fetch_feed (some "http://example.com/feed")
          (FetchOutcome.parsed XmlDoc.otherShape) "t0" :=
  ⟨rfl, rfl, rfl⟩

/-- Claim C4 as amended: a malformed feed makes the fetch return the
same failure value (None) as a network timeout or connection failure,
and the HTTP layer maps both to one identical generic failure
response; no distinguishable error kinds exist. -/
theorem claim_C4_failures_collapse (url now : String) :
    fetch_rss_feed url FetchOutcome.requestError now = none ∧
    fetch_rss_feed url FetchOutcome.xmlParseError now = none ∧
    fetch_rss_feed url (FetchOutcome.parsed XmlDoc.otherShape) now = none ∧
    (url ≠ "" →
      api_fetch_feed (some url) (FetchOutcome.parsed XmlDoc.otherShape) now
        = ⟨500, false, some "Failed to fetch or parse RSS feed", none⟩ ∧
      api_fetch_feed (some url) FetchOutcome.requestError now
        = api_fetch_feed (some url) (FetchOutcome.parsed XmlDoc.otherShape) now) := by
  refine ⟨rfl, rfl, rfl, ?_⟩
  intro hne
  constructor <;> simp [api_fetch_feed, hne, fetch_rss_feed]

/-- Witness for claim C4 at a concrete URL. -/
theorem claim_C4_witness :
    api_fetch_feed (some "http://example.com/feed")
        (FetchOutcome.parsed XmlDoc.otherShape) "t1"
      = ⟨500, false, some "Failed to fetch or parse RSS feed", none⟩ ∧
    api_fetch_feed (some "http://example.com/feed") FetchOutcome.requestError "t1"
      = api_fetch_feed (some "http://example.com/feed")
          (FetchOutcome.parsed XmlDoc.otherShape) "t1" :=
  (claim_C4_failures_collapse "http://example.com/feed" "t1").2.2.2 (by decide)

/-! ## The claims about HTML sanitisation -/

/-- A Python slice s[:n] has at most n characters. -/
theorem length_pyTake_le (s : String) (n : Nat) : (pyTake s n).length ≤ n := by
  simp only [pyTake, String.length_mk, List.length_take]
  omega

/-- The sanitizer output never exceeds 1000 characters. -/
theorem clean_html_length_le (doc : HtmlDoc) : (clean_html doc).length ≤ 1000 := by
  unfold clean_html
  split
  · simp
  · split
    · exact length_pyTake_le _ _
    · exact le_trans (length_pyTake_le _ _) (by norm_num)

/-- Claim C6 as amended: the summary and content fields are always at
most 1000 characters; when the markup of the source field parsed, the
field is the collapsed text of the soup with every script and style
element removed, cut at 1000 characters, and that soup is free of
script and style elements; when the parser raised, the field degrades
to the first 500 raw characters, which may still contain markup. -/
theorem claim_C6_sanitization (item : Item) :
    (parse_article_core item).summary.length ≤ 1000 ∧
    (parse_article_core item).content.length ≤ 1000 ∧
    (∀ doc ns, item.description = some doc → doc.soup = some ns →
      doc.raw ≠ "" →
      (parse_article_core item).summary
        = pyTake (collapseWhitespace (getTextList (decomposeList ns))) 1000 ∧
      freeOfScriptStyleList (decomposeList ns) = true) ∧
    (∀ doc, item.description = some doc → doc.soup = none → doc.raw ≠ "" →
      (parse_article_core item).summary = pyTake doc.raw 500) ∧
    (∀ doc ns, item.contentEncoded = some doc → doc.soup = some ns →
      doc.raw ≠ "" →
      (parse_article_core item).content
        = pyTake (collapseWhitespace (getTextList (decomposeList ns))) 1000) ∧
    (∀ doc, item.contentEncoded = some doc → doc.soup = none → doc.raw ≠ "" →
      (parse_article_core item).content = pyTake doc.raw 500) := by
  refine ⟨?_, ?_, ?_, ?_, ?_, ?_⟩
  · cases hd : item.description with
    | some v => simpa [parse_article_core, hd] using clean_html_length_le v
    | none =>
      cases hs : item.summary with
      | some v => simpa [parse_article_core, hd, hs] using clean_html_length_le v
      | none => simp [parse_article_core, hd, hs]
  · cases hd : item.contentEncoded with
    | some v => simpa [parse_article_core, hd] using clean_html_length_le v
    | none =>
      cases hs : item.content with
      | some v => simpa [parse_article_core, hd, hs] using clean_html_length_le v
      | none => simp [parse_article_core, hd, hs]
  · intro doc ns hdoc hsoup hraw
    refine ⟨?_, freeOfScriptStyleList_decomposeList ns⟩
    simp [parse_article_core, hdoc, clean_html, hsoup, hraw]
  · intro doc hdoc hsoup hraw
    simp [parse_article_core, hdoc, clean_html, hsoup, hraw]
  · intro doc ns hdoc hsoup hraw
    simp [parse_article_core, hdoc, clean_html, hsoup, hraw]
  · intro doc hdoc hsoup hraw
    simp [parse_article_core, hdoc, clean_html, hsoup, hraw]

/-- Claim C6, counterexample: when sanitisation fails, the degraded
summary is the raw prefix and carries a script tag, so the field is
not free of script text. -/
theorem claim_C6_counterexample :
    (parse_article_core { description := some badDoc }).summary
      = "<script>alert(1)</script>" ∧
    containsScriptOrStyleTag
      (parse_article_core { description := some badDoc }).summary = true ∧
    (parse_article_core { description := some badDoc }).summary.length ≤ 1000 := by
  refine ⟨by decide, by decide, by decide⟩

/-- Witness for claim C6 on a parsed document with a script element. -/
theorem claim_C6_witness :
    (parse_article_core { description := some sampleDoc }).summary = "hello" ∧
    freeOfScriptStyleList (decomposeList sampleSoup) = true ∧
    (parse_article_core { description := some sampleDoc }).summary.length ≤ 1000 := by
  have h := claim_C6_sanitization { description := some sampleDoc }
  have h3 := h.2.2.1 sampleDoc sampleSoup rfl rfl (by decide)
  refine ⟨?_, h3.2, h.1⟩
  rw [h3.1]
  decide

end AisWeb
